import Mathlib

/-!
Verification development for the LiveDebugger capture pipeline of the
MemorySpaceFeatures repository.  The object under study is the
`LiveDebugger` JavaScript singleton (src/unnamed/part_001, second
revision, lines 511-1209; src/live-debugger/debugger.js is an earlier
revision of the same object with identical buffer logic).

Shallow embedding conventions:

* JS strings are Lean `String`s (code-unit operations such as
  `substring`, `startsWith` and regular-expression substring search are
  modelled on the underlying character list).
* `this.entries` is a JS value that is normally an array of log entry
  objects but, after a bad restore, can be any JSON value; it is
  modelled by `JsVal` (`arr` for arrays of entries, `nonArr` for every
  non-array JSON value, carrying its textual form only as a tag).
* the `localStorage` slot under the key `live-debugger-logs` is
  modelled at the JSON value level by `StoredVal`: `absent` (getItem
  returns null), `badJson` (a string rejected by JSON.parse), and
  `jsonVal v` (a string produced by JSON.stringify of `v`, which
  JSON.parse maps back to `v`; this host-level round trip is exact on
  the value domain used here - records of strings and null).
* methods that can throw a TypeError into their caller return
  `Except Unit`; methods whose internal failures are caught in the
  source return plain values and append to a `diagnostics` list
  (console.warn / console.error output).
* DOM rendering, panel HTML, dragging and the toggle button are pure
  presentation and are not part of the pipeline state.
-/

set_option maxRecDepth 10000

/-! ## Masking policy (INPUT interceptor, src/unnamed/part_001 lines 812-829) -/

/-- Lowercase image of a string, character by character: model of the
case folding performed by the `i` flag of the sensitive-field regular
expression (ASCII alternatives only). -/
def toLowerStr (s : String) : String := String.mk (s.data.map Char.toLower)

/-- Decidable contiguous-substring test on character lists; model of
`RegExp.test` for an alternation of plain words applied to `hay`. -/
def containsSub (hay pat : List Char) : Bool :=
  match hay with
  | [] => pat.isEmpty
  | _ :: t => (pat.isPrefixOf hay) || containsSub t pat

/-- The alternatives of the sensitive-field regular expression
`password|secret|token|key|auth|credential|ssn|credit|card` used with
the case-insensitive flag at src/unnamed/part_001 line 820. -/
def sensitivePatterns : List String :=
  ["password", "secret", "token", "key", "auth", "credential", "ssn", "credit", "card"]

/-- Model of `sensitivePatterns.test(id)`: some alternative occurs
case-insensitively as a contiguous substring of the identifier. -/
def sensitiveTest (ident : String) : Bool :=
  sensitivePatterns.any (fun p => containsSub (toLowerStr ident).data p.data)

/-- Model of `e.target.id || e.target.name || "unnamed"` (JS falsiness
of the empty string). -/
def effectiveFieldId (id name : String) : String :=
  if id = "" then (if name = "" then "unnamed" else name) else id

/-- Model of `s.substring(0, n)`: the first `n` code units. -/
def jsTake (s : String) (n : Nat) : String := String.mk (s.data.take n)

/-- Value recorded by the INPUT handler for an input/textarea field:
`"[MASKED]"` when the field is sensitive (identifier matches the
pattern set, or the type attribute is `password`), otherwise the raw
value truncated to 50 code units (src/unnamed/part_001 lines 816-825). -/
def inputRecordedValue (id name ty value : String) : String :=
  let ident := effectiveFieldId id name
  let inputType := if ty = "" then "text" else ty
  let isSensitive := sensitiveTest ident || inputType == "password"
  if isSensitive then "[MASKED]" else jsTake value 50

/-- Message of the INPUT event record handed to addLog at
src/unnamed/part_001 line 827. -/
def inputHandlerMessage (id name ty value : String) : String :=
  effectiveFieldId id name ++ " = \"" ++ inputRecordedValue id name ty value ++ "\""

/-! ## Bounded buffer core (src/unnamed/part_001 lines 975-984) -/

/-- Buffer update performed by addLog: `entries.push(entry)` followed by
`if (entries.length > maxEntries) entries.shift()`.  `maxEntries` is a
JS number, kept as an integer because the source never validates it. -/
def addLogEntry {α : Type} (maxEntries : Int) (buf : List α) (e : α) : List α :=
  let b := buf ++ [e]
  if (b.length : Int) > maxEntries then b.drop 1 else b

/-- Buffer contents after a sequence of appends into a given buffer. -/
def addLogAll {α : Type} (maxEntries : Int) (buf : List α) (es : List α) : List α :=
  es.foldl (addLogEntry maxEntries) buf

/-! ## Data model -/

/-- An event record as built by addLog (src/unnamed/part_001 lines
966-973).  The JS field `type` is called `etype` here because `type` is
a Lean keyword; `details` is null in every call of this repository and
is kept as an optional JSON-text payload. -/
structure LogEntry where
  timestamp : String
  sessionId : String
  etype : String
  message : String
  color : String
  details : Option String := none
deriving DecidableEq, Repr

/-- The JS value held by `this.entries`: normally an array of log
entries; any other JSON value (number, string, object, null) that a bad
restore can put there is abstracted as `nonArr` with a textual tag. -/
inductive JsVal : Type where
  | arr (entries : List LogEntry)
  | nonArr (tag : String)
deriving DecidableEq, Repr

/-- Content of the `live-debugger-logs` localStorage slot, modelled at
the JSON value level: absent, a string JSON.parse rejects, or a string
that parses to the given value. -/
inductive StoredVal : Type where
  | absent
  | badJson
  | jsonVal (v : JsVal)
deriving DecidableEq, Repr

/-- The configuration object (src/unnamed/part_001 lines 542-549). -/
structure Config where
  enabled : Bool
  maxEntries : Int
  persistLogs : Bool
  sendToServer : Bool
  serverEndpoint : String
  logLevel : String
deriving DecidableEq, Repr

/-- Default configuration (the literal at src/unnamed/part_001 lines
542-549; `enabled` is read from localStorage, taken false here). -/
def defaultConfig : Config :=
  { enabled := false
    maxEntries := 100
    persistLogs := false
    sendToServer := false
    serverEndpoint := "/api/debug-logs"
    logLevel := "ALL" }

/-- Options accepted by init; `Object.assign(this.config, options)`
overwrites exactly the keys that are present. -/
structure InitOptions where
  enabled : Option Bool := none
  maxEntries : Option Int := none
  persistLogs : Option Bool := none
  sendToServer : Option Bool := none
  serverEndpoint : Option String := none
  logLevel : Option String := none
deriving DecidableEq, Repr

/-- Model of `Object.assign(this.config, options)` for the recognized
option keys (src/unnamed/part_001 line 578). -/
def mergeOptions (c : Config) (o : InitOptions) : Config :=
  { enabled := o.enabled.getD c.enabled
    maxEntries := o.maxEntries.getD c.maxEntries
    persistLogs := o.persistLogs.getD c.persistLogs
    sendToServer := o.sendToServer.getD c.sendToServer
    serverEndpoint := o.serverEndpoint.getD c.serverEndpoint
    logLevel := o.logLevel.getD c.logLevel }

/-- Colors used by the calls modelled here (src/unnamed/part_001 lines
558-571). -/
def colorINIT : String := "#868DED"

/-- The INFO color, passed by the clear handler. -/
def colorINFO : String := "#8FC22A"

/-- The FETCH color, passed by the fetch interceptor. -/
def colorFETCH : String := "#ffffff"

/-! ## Pipeline state -/

/-- State of the LiveDebugger singleton relevant to the capture
pipeline: configuration, the entries value, the session identifier
(Date.now().toString(36), generated once), the page origin
(window.location.origin), the persisted-logs storage slot, how many
times window.fetch has been wrapped, the console diagnostics emitted,
and the POST requests handed to fetch by the remote sink. -/
structure DebuggerState where
  config : Config
  entries : JsVal
  sessionId : String
  origin : String
  storage : StoredVal
  fetchWraps : Nat
  diagnostics : List String
  posted : List (String × LogEntry)
deriving DecidableEq, Repr

/-- Model of `String.prototype.startsWith`. -/
def jsStartsWith (s p : String) : Bool := p.data.isPrefixOf s.data

/-- Outcome of one sendToServer call. -/
inductive SendOutcome : Type where
  | skipped
  | blocked
  | posted (endpoint : String) (entry : LogEntry)
deriving DecidableEq, Repr

/-- The remote sink (src/unnamed/part_001 lines 1169-1189): empty
endpoint returns immediately; an endpoint that neither starts with `/`
nor has the page origin as a string prefix is blocked with a
console.warn diagnostic and no network call; otherwise a POST of the
entry is issued to the endpoint. -/
def sendToServer (origin : String) (cfg : Config) (e : LogEntry) : SendOutcome :=
  if cfg.serverEndpoint = "" then SendOutcome.skipped
  else
    let isRelative := jsStartsWith cfg.serverEndpoint "/"
    let isSameOrigin := jsStartsWith cfg.serverEndpoint origin
    if !isRelative && !isSameOrigin then SendOutcome.blocked
    else SendOutcome.posted cfg.serverEndpoint e

/-- Diagnostic text of the blocked-endpoint console.warn. -/
def blockedDiag : String :=
  "[LiveDebugger] Blocked cross-origin server endpoint for security"

/-- Effect of the sendToServer step of addLog on the pipeline state. -/
def applySend (s : DebuggerState) (e : LogEntry) : DebuggerState :=
  match sendToServer s.origin s.config e with
  | SendOutcome.skipped => s
  | SendOutcome.blocked => { s with diagnostics := s.diagnostics ++ [blockedDiag] }
  | SendOutcome.posted ep entry => { s with posted := s.posted ++ [(ep, entry)] }

/-- The persistence sink (src/unnamed/part_001 lines 1098-1104):
`localStorage.setItem("live-debugger-logs", JSON.stringify(this.entries))`,
modelled at the JSON value level. -/
def persistLogs (s : DebuggerState) : DebuggerState :=
  { s with storage := StoredVal.jsonVal s.entries }

/-- Diagnostic text of the restore-failure console.error. -/
def restoreDiag : String := "Failed to restore logs:"

/-- Rehydration at initialization (src/unnamed/part_001 lines
1109-1163): when the slot is present, `this.entries = JSON.parse(stored)`
is assigned unconditionally; a JSON.parse failure is caught before the
assignment, while a non-array parsed value makes the subsequent
`entries.forEach` rendering throw, which the same catch swallows after
the assignment has happened.  No capacity check is performed. -/
def restoreLogs (s : DebuggerState) : DebuggerState :=
  match s.storage with
  | StoredVal.absent => s
  | StoredVal.badJson => { s with diagnostics := s.diagnostics ++ [restoreDiag] }
  | StoredVal.jsonVal (JsVal.arr l) => { s with entries := JsVal.arr l }
  | StoredVal.jsonVal (JsVal.nonArr t) =>
      { s with entries := JsVal.nonArr t, diagnostics := s.diagnostics ++ [restoreDiag] }

/-- Constructor of the entry object literal at src/unnamed/part_001
lines 966-973 (timestamp is the Date().toISOString() instant of the
call, threaded as an argument). -/
def mkEntry (ts sid ty msg color : String) : LogEntry :=
  { timestamp := ts, sessionId := sid, etype := ty, message := msg
    color := color, details := none }

/-- The capture entry point addLog (src/unnamed/part_001 lines
957-1043): build the entry, push it with FIFO eviction, persist the
whole buffer when enabled, hand the single new entry to the remote sink
when enabled.  `this.entries.push` throws a TypeError when entries is
not an array, which propagates to the caller (`Except.error`).
Rendering and console.log are presentation and not modelled. -/
def addLog (s : DebuggerState) (ts ty msg color : String) : Except Unit DebuggerState :=
  match s.entries with
  | JsVal.nonArr _ => Except.error ()
  | JsVal.arr l =>
      let e := mkEntry ts s.sessionId ty msg color
      let l1 := addLogEntry s.config.maxEntries l e
      let s1 := { s with entries := JsVal.arr l1 }
      let s2 := if s1.config.persistLogs then persistLogs s1 else s1
      let s3 := if s2.config.sendToServer then applySend s2 e else s2
      Except.ok s3

/-- The clear-button handler (src/unnamed/part_001 lines 774-778):
`this.entries = []`, the panel is wiped, and a CLEAR record is logged
through addLog with the INFO color. -/
def clearHandler (ts : String) (s : DebuggerState) : Except Unit DebuggerState :=
  addLog { s with entries := JsVal.arr [] } ts "CLEAR" "Debug log cleared" colorINFO

/-- Initialization (src/unnamed/part_001 lines 576-592): merge options
into the config, inject the panel (presentation), install the listeners
and network interceptors (modelled by the fetch wrap counter), restore
persisted logs when enabled, and log the INIT record.  No option is
validated.  A TypeError thrown by the final addLog propagates out. -/
def init (opts : InitOptions) (ts : String) (s : DebuggerState) : Except Unit DebuggerState :=
  let s1 := { s with config := mergeOptions s.config opts }
  let s2 := { s1 with fetchWraps := s1.fetchWraps + 1 }
  let s3 := if s2.config.persistLogs then restoreLogs s2 else s2
  addLog s3 ts "INIT"
    ("Live Debugger v1.0.0 initialized (session: " ++ s3.sessionId ++ ")") colorINIT

/-! ## Fetch interceptor (src/unnamed/part_001 lines 907-923) -/

/-- Denotation of a fetch-like function for the purpose of counting the
debugger records it emits: given the request URL and the status the
underlying call settles with, the (type, message) pairs handed to
addLog during the call, in order.  The unwrapped window.fetch emits
none. -/
def FetchFn : Type := String → Nat → List (String × String)

/-- The browser fetch before any interception: no debugger records. -/
def originalFetch : FetchFn := fun _ _ => []

/-- interceptFetch replaces window.fetch by a wrapper that logs
`>> url` before delegating and `<< status url` when the delegated call
resolves (src/unnamed/part_001 lines 910-922). -/
def interceptFetch (f : FetchFn) : FetchFn := fun url status =>
  ("FETCH", ">> " ++ url) :: f url status ++ [("FETCH", "<< " ++ toString status ++ " " ++ url)]

/-- The fetch function installed after k calls of init, each of which
runs interceptFetch on the current window.fetch. -/
def fetchAfterInits : Nat → FetchFn
  | 0 => originalFetch
  | k + 1 => interceptFetch (fetchAfterInits k)

/-- Recognizer of a request-initiated record. -/
def isInitiatedRec (r : String × String) : Bool := jsStartsWith r.2 ">> "

/-- Recognizer of a request-completed record. -/
def isCompletedRec (r : String × String) : Bool := jsStartsWith r.2 "<< "

/-! ## Origin of an absolute URL -/

/-- Modelled from the spec: the origin of an absolute http(s) URL, the
scheme and authority up to the first slash after the scheme separator.
This is the same-origin notion of the spec sentence "an absolute
cross-origin endpoint is refused with a diagnostic, never silently
sent"; the source itself only performs a string-prefix test. -/
def urlOrigin (s : String) : Option String :=
  if jsStartsWith s "https://" then
    some ("https://" ++ String.mk ((s.data.drop 8).takeWhile (fun c => c ≠ '/')))
  else if jsStartsWith s "http://" then
    some ("http://" ++ String.mk ((s.data.drop 7).takeWhile (fun c => c ≠ '/')))
  else none

/-- Modelled from the spec: an endpoint is cross-origin when it is an
absolute URL whose origin differs from the page origin. -/
def isCrossOrigin (pageOrigin endpoint : String) : Bool :=
  match urlOrigin endpoint with
  | some o => o ≠ pageOrigin
  | none => false

/-! ## Test fixtures used by concrete theorems -/

/-- A sample record used as concrete input in closed theorems. -/
def sampleEntry (tag : String) : LogEntry := mkEntry tag "s0" "INFO" tag "#8FC22A"

/-- A fresh pipeline state before any capture, with the given storage
slot content. -/
def baseState (stor : StoredVal) : DebuggerState :=
  { config := defaultConfig, entries := JsVal.arr [], sessionId := "s0"
    origin := "https://app.example.com", storage := stor
    fetchWraps := 0, diagnostics := [], posted := [] }

/-- Number of records in the entries value (0 for a non-array). -/
def entriesLen : JsVal → Nat
  | JsVal.arr l => l.length
  | JsVal.nonArr _ => 0

/-! ## Helper lemmas -/

/-- Appending with room left just pushes. -/
theorem addLogEntry_of_room {α : Type} (t : Nat) (buf : List α) (e : α)
    (h : buf.length + 1 ≤ t) : addLogEntry (t : Int) buf e = buf ++ [e] := by
  unfold addLogEntry
  rw [if_neg]
  simp only [List.length_append, List.length_singleton]
  exact_mod_cast Nat.not_lt.mpr h

/-- Appending into a full buffer pushes and then drops the oldest. -/
theorem addLogEntry_of_full {α : Type} (t : Nat) (buf : List α) (e : α)
    (h : t < buf.length + 1) : addLogEntry (t : Int) buf e = (buf ++ [e]).drop 1 := by
  unfold addLogEntry
  rw [if_pos]
  simp only [List.length_append, List.length_singleton]
  exact_mod_cast h

/-- Core characterization of the bounded buffer: starting from a buffer
within capacity, a sequence of appends leaves exactly the last
`capacity` elements of the concatenation (truncated subtraction makes
the formula cover the non-overflowing case as well). -/
theorem addLogAll_drop {α : Type} (t : Nat) (es : List α) :
    ∀ buf : List α, buf.length ≤ t →
      addLogAll (t : Int) buf es = (buf ++ es).drop (buf.length + es.length - t) := by
  induction es with
  | nil =>
      intro buf h
      simp [addLogAll, Nat.sub_eq_zero_of_le h]
  | cons e rest ih =>
      intro buf h
      have hstep : addLogAll (t : Int) buf (e :: rest) =
          addLogAll (t : Int) (addLogEntry (t : Int) buf e) rest := rfl
      rw [hstep]
      have hx : (buf ++ [e]) ++ rest = buf ++ e :: rest := by simp
      by_cases hroom : buf.length + 1 ≤ t
      · rw [addLogEntry_of_room t buf e hroom]
        rw [ih (buf ++ [e]) (by simpa using hroom)]
        have h2 : (buf ++ [e]).length + rest.length - t =
            buf.length + (e :: rest).length - t := by
          simp only [List.length_append, List.length_cons, List.length_nil]
          omega
        rw [hx, h2]
      · have hfull : buf.length = t := Nat.le_antisymm h (by omega)
        rw [addLogEntry_of_full t buf e (by omega)]
        have hlen : ((buf ++ [e]).drop 1).length = t := by
          simp only [List.length_drop, List.length_append, List.length_cons,
            List.length_nil]
          omega
        rw [ih _ (Nat.le_of_eq hlen), hlen]
        have h1 : (buf ++ [e]).drop 1 ++ rest = (buf ++ e :: rest).drop 1 := by
          rw [← hx]
          exact (List.drop_append_of_le_length (by simp)).symm
        have h2 : t + rest.length - t = rest.length := by omega
        rw [h1, h2, List.drop_drop]
        have h3 : 1 + rest.length = buf.length + (e :: rest).length - t := by
          simp only [List.length_cons]
          omega
        rw [h3]

/-! ## C1 -/

/-- C1: for every input observation on an input/textarea field, if the
type attribute of the element is "password" or the effective field
identifier (id, else name) matches the case-insensitive sensitive
pattern set, the value recorded in the INPUT record is the redaction
token "[MASKED]" regardless of the raw value. -/
theorem c1_sensitive_input_masked (id name ty value : String)
    (h : ty = "password" ∨ sensitiveTest (effectiveFieldId id name) = true) :
    inputRecordedValue id name ty value = "[MASKED]" := by
  rcases h with h | h
  · subst h
    simp [inputRecordedValue]
  · simp [inputRecordedValue, h]

/-- Witness for C1: field id "password" with raw value "hunter2" and a
non-password type attribute is recorded as the redaction token. -/
theorem c1_sensitive_input_masked_witness :
    inputRecordedValue "password" "" "text" "hunter2" = "[MASKED]" :=
  c1_sensitive_input_masked "password" "" "text" "hunter2" (Or.inr (by decide))

/-! ## C2 -/

/-- C2: for every sequence of N appends into an initially empty buffer
of capacity at least 1, if N exceeds the capacity then the final buffer
holds exactly the last `capacity` appended records in their original
relative order. -/
theorem c2_fifo_keeps_last_capacity (c : Nat) (es : List LogEntry)
    (hc : 1 ≤ c) (hN : c < es.length) :
    addLogAll (c : Int) [] es = es.drop (es.length - c) := by
  have h := addLogAll_drop (α := LogEntry) c es [] (by simp)
  simpa using h

/-- Witness for C2: capacity 3, appending A, B, C, D leaves [B, C, D]. -/
theorem c2_fifo_keeps_last_capacity_witness :
    addLogAll (3 : Int) []
      [sampleEntry "A", sampleEntry "B", sampleEntry "C", sampleEntry "D"] =
      [sampleEntry "B", sampleEntry "C", sampleEntry "D"] :=
  (c2_fifo_keeps_last_capacity 3
    [sampleEntry "A", sampleEntry "B", sampleEntry "C", sampleEntry "D"]
    (by decide) (by decide)).trans (by rfl)

/-! ## C10 -/

/-- C10: masking matches the sensitive words as substrings of the field
identifier, not whole names: whenever some sensitive word occurs
case-insensitively inside the effective identifier, the recorded value
is the redaction token, whatever the type attribute and raw value. -/
theorem c10_substring_match_masks (w id name ty value : String)
    (hw : w ∈ sensitivePatterns)
    (hsub : containsSub (toLowerStr (effectiveFieldId id name)).data w.data = true) :
    inputRecordedValue id name ty value = "[MASKED]" := by
  have hs : sensitiveTest (effectiveFieldId id name) = true := by
    unfold sensitiveTest
    exact List.any_eq_true.mpr ⟨w, hw, hsub⟩
  simp [inputRecordedValue, hs]

/-- Witness for C10: "monkey" contains "key" and "discard" contains
"card", so both fields are masked although neither is a secret field. -/
theorem c10_substring_match_masks_witness :
    inputRecordedValue "monkey" "" "text" "banana" = "[MASKED]" ∧
    inputRecordedValue "discard" "" "text" "trash" = "[MASKED]" :=
  ⟨c10_substring_match_masks "key" "monkey" "" "text" "banana" (by decide) (by decide),
   c10_substring_match_masks "card" "discard" "" "text" "trash" (by decide) (by decide)⟩

/-! ## C3 -/

/-- Counterexample for C3: restoreLogs does not enforce the capacity
bound.  With capacity 3, a pre-state whose buffer satisfies the
invariant, and four persisted records, the rehydrated buffer holds four
records, violating the at-most-maxEntries invariant. -/
theorem c3_invariant_cex :
    entriesLen ({ baseState (StoredVal.jsonVal (JsVal.arr
        [sampleEntry "A", sampleEntry "B", sampleEntry "C", sampleEntry "D"])) with
      config := { defaultConfig with maxEntries := 3 } } : DebuggerState).entries ≤ 3 ∧
    ¬ entriesLen (restoreLogs
      { baseState (StoredVal.jsonVal (JsVal.arr
          [sampleEntry "A", sampleEntry "B", sampleEntry "C", sampleEntry "D"])) with
        config := { defaultConfig with maxEntries := 3 } }).entries ≤ 3 := by
  constructor
  · decide
  · decide

/-- C3 (amended): the bounded-buffer invariant is preserved by addLog -
from a buffer within capacity, the append keeps the length within
capacity and evicts exactly the oldest element (the result is the
suffix of the pushed sequence) - while restoreLogs replaces the buffer
with the persisted sequence unconditionally, so it preserves the
capacity bound only when that sequence itself is within capacity. -/
theorem c3_invariant_amended :
    (∀ (c : Nat) (l : List LogEntry) (e : LogEntry), l.length ≤ c →
        (addLogEntry (c : Int) l e).length ≤ c ∧
        addLogEntry (c : Int) l e = (l ++ [e]).drop (l.length + 1 - c)) ∧
    (∀ (s : DebuggerState) (l : List LogEntry),
        s.storage = StoredVal.jsonVal (JsVal.arr l) →
        (restoreLogs s).entries = JsVal.arr l) := by
  constructor
  · intro c l e hl
    have h := addLogAll_drop (α := LogEntry) c [e] l hl
    have hone : addLogAll (c : Int) l [e] = addLogEntry (c : Int) l e := rfl
    rw [hone] at h
    simp only [List.length_cons, List.length_nil] at h
    constructor
    · rw [h]
      simp only [List.length_drop, List.length_append, List.length_cons,
        List.length_nil]
      omega
    · rw [h]
  · intro s l hst
    unfold restoreLogs
    rw [hst]

/-- Witness for C3 (amended): appending into a full buffer of capacity
3 evicts exactly the oldest record, and restoring a stored pair
replaces the buffer by that pair. -/
theorem c3_invariant_amended_witness :
    ((addLogEntry (3 : Int) [sampleEntry "A", sampleEntry "B", sampleEntry "C"]
        (sampleEntry "D")).length ≤ 3 ∧
      addLogEntry (3 : Int) [sampleEntry "A", sampleEntry "B", sampleEntry "C"]
        (sampleEntry "D") =
        ([sampleEntry "A", sampleEntry "B", sampleEntry "C"] ++ [sampleEntry "D"]).drop
          (3 + 1 - 3)) ∧
    (restoreLogs (baseState (StoredVal.jsonVal (JsVal.arr
        [sampleEntry "A", sampleEntry "B"])))).entries =
      JsVal.arr [sampleEntry "A", sampleEntry "B"] :=
  ⟨c3_invariant_amended.1 3
      [sampleEntry "A", sampleEntry "B", sampleEntry "C"] (sampleEntry "D") (by decide),
   c3_invariant_amended.2 (baseState (StoredVal.jsonVal (JsVal.arr
      [sampleEntry "A", sampleEntry "B"]))) [sampleEntry "A", sampleEntry "B"] rfl⟩

/-! ## C4 -/

/-- C4 (code bug): the send-time policy is a string-prefix test, not a
same-origin test.  The endpoint whose URL merely extends the page
origin string is absolute, cross-origin by URL origin, not relative -
yet sendToServer posts it silently, contradicting the comment of the
source itself ("Only sends to same-origin endpoints"); the scenario
endpoint of the spec, which shares no prefix with the origin, is
indeed blocked. -/
theorem c4_prefix_bypass_cross_origin :
    sendToServer "https://good.example.com"
      { defaultConfig with serverEndpoint := "https://good.example.com.evil.com/collect" }
      (sampleEntry "A") =
      SendOutcome.posted "https://good.example.com.evil.com/collect" (sampleEntry "A") ∧
    isCrossOrigin "https://good.example.com"
      "https://good.example.com.evil.com/collect" = true ∧
    jsStartsWith "https://good.example.com.evil.com/collect" "/" = false ∧
    sendToServer "https://good.example.com"
      { defaultConfig with serverEndpoint := "https://evil.example.com/collect" }
      (sampleEntry "A") = SendOutcome.blocked := by
  refine ⟨by decide, by decide, by decide, by decide⟩

/-! ## C5 -/

/-- C5: persistence round-trip - for any buffer snapshot produced by
valid appends, rehydrating the slot written by the persistence sink
yields the same entries value, order and field values included. -/
theorem c5_persist_restore_roundtrip (c : Int) (ents : List LogEntry)
    (s t : DebuggerState) (h : s.entries = JsVal.arr (addLogAll c [] ents)) :
    (restoreLogs { t with storage := (persistLogs s).storage }).entries = s.entries := by
  simp only [persistLogs, restoreLogs, h]

/-- Witness for C5: a two-record snapshot survives the persist/restore
round trip unchanged. -/
theorem c5_persist_restore_roundtrip_witness :
    (restoreLogs { baseState StoredVal.absent with
        storage := (persistLogs { baseState StoredVal.absent with
          entries := JsVal.arr (addLogAll 100 [] [sampleEntry "A", sampleEntry "B"]) }).storage }).entries =
      JsVal.arr (addLogAll 100 [] [sampleEntry "A", sampleEntry "B"]) :=
  c5_persist_restore_roundtrip 100 [sampleEntry "A", sampleEntry "B"] _ _ rfl

/-! ## C6 -/

/-- The initiation record of a wrapped call is recognized as such. -/
theorem initRec_true (u : String) : isInitiatedRec ("FETCH", ">> " ++ u) = true := by
  show List.isPrefixOf (">> ").data ((">> " ++ u)).data = true
  rw [String.data_append]
  exact List.isPrefixOf_iff_prefix.mpr (List.prefix_append _ _)

/-- A completion record is not an initiation record. -/
theorem initRec_false (t u : String) :
    isInitiatedRec ("FETCH", "<< " ++ t ++ " " ++ u) = false := by
  show List.isPrefixOf (">> ").data (("<< " ++ t ++ " " ++ u)).data = false
  rw [String.data_append, String.data_append, String.data_append]
  show List.isPrefixOf ['>', '>', ' ']
    ((('<' :: '<' :: ' ' :: t.data) ++ [' ']) ++ u.data) = false
  simp [List.isPrefixOf]

/-- The completion record of a wrapped call is recognized as such. -/
theorem compRec_true (t u : String) :
    isCompletedRec ("FETCH", "<< " ++ t ++ " " ++ u) = true := by
  show List.isPrefixOf ("<< ").data (("<< " ++ t ++ " " ++ u)).data = true
  rw [String.data_append, String.data_append, String.data_append]
  show List.isPrefixOf ['<', '<', ' ']
    ((('<' :: '<' :: ' ' :: t.data) ++ [' ']) ++ u.data) = true
  simp [List.isPrefixOf]

/-- An initiation record is not a completion record. -/
theorem compRec_false (u : String) : isCompletedRec ("FETCH", ">> " ++ u) = false := by
  show List.isPrefixOf ("<< ").data ((">> " ++ u)).data = false
  rw [String.data_append]
  show List.isPrefixOf ['<', '<', ' '] ('>' :: '>' :: ' ' :: u.data) = false
  simp [List.isPrefixOf]

/-- Counterexample for C6: after a second init, one fetch call produces
two request-initiated records and two request-completed records, not
one of each as the claim states. -/
theorem c6_second_init_double_wraps_cex :
    List.countP isInitiatedRec (fetchAfterInits 2 "/api/data" 200) = 2 ∧
    ¬ List.countP isInitiatedRec (fetchAfterInits 2 "/api/data" 200) = 1 ∧
    List.countP isCompletedRec (fetchAfterInits 2 "/api/data" 200) = 2 := by
  decide

/-- C6 (amended): init is not idempotent against re-installation - each
init call re-wraps window.fetch, so after k init calls a single fetch
call emits exactly k request-initiated and k request-completed records
(the singleton LiveDebugger buffer is shared, but the interceptor
double-installs rather than installing exactly once). -/
theorem c6_amended_wrap_counts (k : Nat) (url : String) (status : Nat) :
    List.countP isInitiatedRec (fetchAfterInits k url status) = k ∧
    List.countP isCompletedRec (fetchAfterInits k url status) = k := by
  induction k with
  | zero => exact ⟨rfl, rfl⟩
  | succ n ih =>
      have hstep : fetchAfterInits (n + 1) url status =
          ("FETCH", ">> " ++ url) :: fetchAfterInits n url status ++
            [("FETCH", "<< " ++ toString status ++ " " ++ url)] := rfl
      rw [hstep]
      constructor
      · simp only [List.countP_cons, List.countP_append, ih.1,
          initRec_true, initRec_false]
        simp
      · simp only [List.countP_cons, List.countP_append, ih.2,
          compRec_true, compRec_false]
        simp

/-! ## C7 -/

/-- Counterexample for C7: init accepts maxEntries = 0 unchanged
(config keeps 0, not the default 100), and the INIT append under it
leaves the buffer empty, unlike an init with the default capacity. -/
theorem c7_no_fallback_cex :
    (init { maxEntries := some 0 } "T" (baseState StoredVal.absent)).map
        (fun s => s.config.maxEntries) = Except.ok 0 ∧
    (init { maxEntries := some 0 } "T" (baseState StoredVal.absent)).map
        (fun s => s.entries) = Except.ok (JsVal.arr []) ∧
    (init {} "T" (baseState StoredVal.absent)).map (fun s => s.entries) =
      Except.ok (JsVal.arr [mkEntry "T" "s0" "INIT"
        "Live Debugger v1.0.0 initialized (session: s0)" colorINIT]) ∧
    JsVal.arr [mkEntry "T" "s0" "INIT"
      "Live Debugger v1.0.0 initialized (session: s0)" colorINIT] ≠ JsVal.arr [] := by
  refine ⟨rfl, rfl, rfl, by decide⟩

/-- C7 (amended): init performs no validation of maxEntries - a value
below 1 is stored in the config unchanged; initialization is not
aborted, and subsequent appends use that value, every append into an
empty buffer immediately evicting the record it pushed, so the buffer
stays empty rather than behaving as with the default capacity 100. -/
theorem c7_amended_no_validation (m : Int) (hm : m < 1) :
    (mergeOptions defaultConfig { maxEntries := some m }).maxEntries = m ∧
    (∀ e : LogEntry, addLogEntry m [] e = []) ∧
    (∃ s', init { maxEntries := some m } "T" (baseState StoredVal.absent) =
        Except.ok s' ∧ s'.config.maxEntries = m ∧ s'.entries = JsVal.arr []) := by
  have hempty : ∀ e : LogEntry, addLogEntry m [] e = [] := by
    intro e
    unfold addLogEntry
    rw [if_pos]
    · rfl
    · simp only [List.nil_append, List.length_cons, List.length_nil]
      omega
  refine ⟨rfl, hempty, ?_⟩
  refine ⟨_, rfl, rfl, ?_⟩
  show JsVal.arr (addLogEntry m [] _) = JsVal.arr []
  rw [hempty]

/-- Witness for C7 (amended), at maxEntries = 0: the config keeps 0 and
an append into the empty buffer leaves it empty. -/
theorem c7_amended_no_validation_witness :
    (mergeOptions defaultConfig { maxEntries := some 0 }).maxEntries = 0 ∧
    addLogEntry 0 [] (sampleEntry "A") = [] :=
  ⟨(c7_amended_no_validation 0 (by decide)).1,
   (c7_amended_no_validation 0 (by decide)).2.1 (sampleEntry "A")⟩

/-! ## C8 -/

/-- C8 (code bug): with persistence enabled, a stored value that is
valid JSON but not an array (the text 42) is assigned to entries by
restoreLogs, and the INIT append performed by init then throws, so
initialization crashes instead of proceeding with an empty buffer; a
stored value that JSON.parse rejects is, by contrast, handled as the
claim describes - a diagnostic is emitted and init completes with the
INIT record in an empty-started buffer. -/
theorem c8_nonarray_restore_crashes_init :
    init { persistLogs := some true } "T"
      (baseState (StoredVal.jsonVal (JsVal.nonArr "42"))) = Except.error () ∧
    (init { persistLogs := some true } "T" (baseState StoredVal.badJson)).map
        (fun s => (s.entries, s.diagnostics)) =
      Except.ok (JsVal.arr [mkEntry "T" "s0" "INIT"
        "Live Debugger v1.0.0 initialized (session: s0)" colorINIT], [restoreDiag]) :=
  ⟨rfl, rfl⟩

/-! ## C9 -/

/-- The persistence step only writes the storage slot. -/
theorem persistLogs_entries (s : DebuggerState) : (persistLogs s).entries = s.entries := rfl

/-- The persistence step keeps the session identifier. -/
theorem persistLogs_sessionId (s : DebuggerState) :
    (persistLogs s).sessionId = s.sessionId := rfl

/-- The persistence step keeps the interceptor installation count. -/
theorem persistLogs_fetchWraps (s : DebuggerState) :
    (persistLogs s).fetchWraps = s.fetchWraps := rfl

/-- The persistence step keeps the configuration. -/
theorem persistLogs_config (s : DebuggerState) : (persistLogs s).config = s.config := rfl

/-- The persistence step keeps the page origin. -/
theorem persistLogs_origin (s : DebuggerState) : (persistLogs s).origin = s.origin := rfl

/-- The remote-sink step does not touch the buffer. -/
theorem applySend_entries (s : DebuggerState) (e : LogEntry) :
    (applySend s e).entries = s.entries := by
  unfold applySend
  cases sendToServer s.origin s.config e <;> rfl

/-- The remote-sink step keeps the session identifier. -/
theorem applySend_sessionId (s : DebuggerState) (e : LogEntry) :
    (applySend s e).sessionId = s.sessionId := by
  unfold applySend
  cases sendToServer s.origin s.config e <;> rfl

/-- The remote-sink step keeps the interceptor installation count. -/
theorem applySend_fetchWraps (s : DebuggerState) (e : LogEntry) :
    (applySend s e).fetchWraps = s.fetchWraps := by
  unfold applySend
  cases sendToServer s.origin s.config e <;> rfl

/-- The remote-sink step keeps the configuration. -/
theorem applySend_config (s : DebuggerState) (e : LogEntry) :
    (applySend s e).config = s.config := by
  unfold applySend
  cases sendToServer s.origin s.config e <;> rfl

/-- The remote-sink step keeps the page origin. -/
theorem applySend_origin (s : DebuggerState) (e : LogEntry) :
    (applySend s e).origin = s.origin := by
  unfold applySend
  cases sendToServer s.origin s.config e <;> rfl

/-- Counterexample for C9: the clear handler empties the buffer and
then logs a CLEAR record through addLog, so the post-state buffer is
not empty - it holds exactly that CLEAR record. -/
theorem c9_clear_not_empty_cex :
    (clearHandler "T" ({ baseState StoredVal.absent with
        entries := JsVal.arr [sampleEntry "A", sampleEntry "B"] })).map
        (fun s => s.entries) =
      Except.ok (JsVal.arr [mkEntry "T" "s0" "CLEAR" "Debug log cleared" colorINFO]) ∧
    JsVal.arr [mkEntry "T" "s0" "CLEAR" "Debug log cleared" colorINFO] ≠
      JsVal.arr [] :=
  ⟨rfl, by decide⟩

/-- C9 (amended): for every buffer state with capacity at least 1, the
clear handler succeeds and leaves the buffer holding exactly the single
CLEAR record it logs after emptying; the session identifier, the
interceptor installation state, the configuration and the page origin
are unchanged. -/
theorem c9_clear_amended (ts : String) (s : DebuggerState)
    (h : 1 ≤ s.config.maxEntries) :
    ∃ s', clearHandler ts s = Except.ok s' ∧
      s'.entries = JsVal.arr [mkEntry ts s.sessionId "CLEAR" "Debug log cleared" colorINFO] ∧
      s'.sessionId = s.sessionId ∧ s'.fetchWraps = s.fetchWraps ∧
      s'.config = s.config ∧ s'.origin = s.origin := by
  have hone : addLogEntry s.config.maxEntries []
      (mkEntry ts s.sessionId "CLEAR" "Debug log cleared" colorINFO) =
      [mkEntry ts s.sessionId "CLEAR" "Debug log cleared" colorINFO] := by
    unfold addLogEntry
    rw [if_neg]
    · rfl
    · simp only [List.nil_append, List.length_cons, List.length_nil]
      omega
  refine ⟨_, rfl, ?_, ?_, ?_, ?_, ?_⟩ <;>
    cases hps : s.config.persistLogs <;> cases hss : s.config.sendToServer <;>
      simp [hps, hss, hone, persistLogs_entries, persistLogs_sessionId,
        persistLogs_fetchWraps, persistLogs_config, persistLogs_origin,
        applySend_entries, applySend_sessionId, applySend_fetchWraps,
        applySend_config, applySend_origin]

/-- Witness for C9 (amended): clearing a fresh default state leaves
exactly the CLEAR record and preserves session, interceptors, config
and origin. -/
theorem c9_clear_amended_witness :
    ∃ s', clearHandler "T" (baseState StoredVal.absent) = Except.ok s' ∧
      s'.entries = JsVal.arr [mkEntry "T" "s0" "CLEAR" "Debug log cleared" colorINFO] ∧
      s'.sessionId = "s0" ∧ s'.fetchWraps = 0 ∧
      s'.config = defaultConfig ∧ s'.origin = "https://app.example.com" :=
  c9_clear_amended "T" (baseState StoredVal.absent) (by decide)
